import Mathlib

/-!
Verification of the JNI bootstrap shim in
`src/libraries/react-native-ondevice-ai/android/src/main/cpp/cpp-adapter.cpp`.

The whole translation unit is:

  #include <jni.h>
  #ifdef ANDROID
  #undef ANDROID
  #endif
  #ifdef IOS
  #undef IOS
  #endif
  #include "NitroOndeviceAiOnLoad.hpp"
  JNIEXPORT jint JNICALL JNI_OnLoad(JavaVM* vm, void*) \x7b
    return margelo::nitro::ondeviceai::initialize(vm);
  \x7d

We embed the body of `JNI_OnLoad` as a program in a tiny effect language
whose only effect is the boundary call to the external initializer
`margelo::nitro::ondeviceai::initialize`.  Interpreting that program with
various oracles (pure, tracing, exceptional, stateful) lets us state and
prove the pass-through, single-call, statelessness, and termination
properties of the shim.
-/

namespace OndeviceAiShim

/-- A `JavaVM*` handle.  Modelled as the pointer's address; `0` is the
null pointer. -/
abbrev JavaVM : Type := Nat

/-- The null `JavaVM*` handle. -/
def nullVM : JavaVM := 0

/-- The anonymous `void*` second parameter of `JNI_OnLoad` (the reserved
argument), likewise modelled as a pointer address. -/
abbrev ReservedPtr : Type := Nat

/-- A `jint`: a 32-bit signed integer.  Modelled as `Int`; the shim only
forwards the value, so no overflow arithmetic occurs. -/
abbrev Jint : Type := Int

/-- Programs over the shim's single boundary effect: a call to the
external initializer `margelo::nitro::ondeviceai::initialize`, which
takes a `JavaVM*` and returns a `jint`.  `ret` finishes with a value;
`callInitialize vm k` performs the external call on handle `vm` and
continues as `k` on the returned status.  The language deliberately has
exactly the constructs the source uses: one external call and `return` —
no store, no branch, no loop. -/
inductive Prog (α : Type) : Type where
  | ret (a : α) : Prog α
  | callInitialize (vm : JavaVM) (k : Jint → Prog α) : Prog α

/-- Shallow embedding of the body of
`JNIEXPORT jint JNICALL JNI_OnLoad(JavaVM* vm, void*)`:
`return margelo::nitro::ondeviceai::initialize(vm);`.
The unnamed reserved parameter is received but never used, exactly as in
the source. -/
def JNI_OnLoad (vm : JavaVM) (_reserved : ReservedPtr) : Prog Jint :=
  Prog.callInitialize vm (fun r => Prog.ret r)

/-- Pure interpreter: run a program against a total initializer
`init : JavaVM → Jint`, producing the program's result. -/
def runPure (init : JavaVM → Jint) : Prog α → α
  | Prog.ret a => a
  | Prog.callInitialize vm k => runPure init (k (init vm))

/-- Tracing interpreter: run a program against a total initializer and
also record, in order, every handle the program passes to the external
initializer. -/
def runTrace (init : JavaVM → Jint) : Prog α → α × List JavaVM
  | Prog.ret a => (a, [])
  | Prog.callInitialize vm k =>
      let p := runTrace init (k (init vm))
      (p.1, vm :: p.2)

/-- Exceptional interpreter: the initializer may fail to return normally
(throw / abort), modelled by `Except ε`.  The shim itself contains no
`throw` and no handler, so the only possible error is one raised by the
initializer. -/
def runExcept (init : JavaVM → Except ε Jint) : Prog α → Except ε α
  | Prog.ret a => Except.ok a
  | Prog.callInitialize vm k =>
      match init vm with
      | Except.ok r => runExcept init (k r)
      | Except.error e => Except.error e

/-- Non-terminating interpreter: the initializer may diverge, modelled by
`Option` (`none` = the call never returns).  The program's run diverges
exactly when one of its initializer calls does. -/
def runOpt (init : JavaVM → Option Jint) : Prog α → Option α
  | Prog.ret a => some a
  | Prog.callInitialize vm k =>
      match init vm with
      | some r => runOpt init (k r)
      | none => none

/-- Stateful interpreter.  `σ` is the host runtime's state (everything
reachable through `JavaVM` handles); the external initializer may read
and update it.  The second state component is the shim's own retained
store: the list of handles the shim itself has stashed away.  The effect
language has no store construct, so no program can ever add to it — the
interpreter threads it through unchanged. -/
def runState (init : JavaVM → σ → Jint × σ) :
    Prog α → σ → List JavaVM → α × σ × List JavaVM
  | Prog.ret a, s, store => (a, s, store)
  | Prog.callInitialize vm k, s, store =>
      let p := init vm s
      runState init (k p.1) p.2 store

/-- `jni.h` status and version codes the host runtime recognizes as a
`JNI_OnLoad` return value: the error codes `JNI_OK = 0`, `JNI_ERR = -1`,
`JNI_EDETACHED = -2`, `JNI_EVERSION = -3`, `JNI_ENOMEM = -4`,
`JNI_EEXIST = -5`, `JNI_EINVAL = -6`, and the version constants
`JNI_VERSION_1_1` through `JNI_VERSION_10`. -/
def recognizedCodes : List Jint :=
  [0, -1, -2, -3, -4, -5, -6,
   0x00010001, 0x00010002, 0x00010004, 0x00010006, 0x00010008,
   0x00090000, 0x000a0000]

/-- A `jint` is a recognized host-runtime load status/version code. -/
def RecognizedCode (c : Jint) : Prop := c ∈ recognizedCodes

instance : DecidablePred RecognizedCode := fun c =>
  inferInstanceAs (Decidable (c ∈ recognizedCodes))

/-- `JNI_OK`, the success sentinel of `jni.h`. -/
def JNI_OK : Jint := 0

/-- Modelled from the spec: the external initializer
`margelo::nitro::ondeviceai::initialize` is declared in
`NitroOndeviceAiOnLoad.hpp` but implemented outside `src/`.  The spec
says its return value is "a status/version code understood by the host
runtime (a well-known integer value)".  `SpecInitializer init` states
that behaviour of an initializer `init`: every output is a recognized
host-runtime code. -/
def SpecInitializer (init : JavaVM → Jint) : Prop :=
  ∀ vm, RecognizedCode (init vm)

/-- Lift a pure, handle-only initializer to the stateful oracle shape:
it reads nothing from and writes nothing to the host state. -/
def pureInit (init : JavaVM → Jint) : JavaVM → σ → Jint × σ :=
  fun vm s => (init vm, s)

/-- C1: for every runtime-environment handle `vm`, the load hook passes
exactly `vm` (and nothing else) to the external initializer and returns
exactly the initializer's result, unmodified. -/
theorem jni_onload_forwards_handle_and_result
    (init : JavaVM → Jint) (vm : JavaVM) (reserved : ReservedPtr) :
    runTrace init (JNI_OnLoad vm reserved) = (init vm, [vm]) := rfl

/-- C2: under every initializer outcome — a normal return of any
sentinel value, or an abnormal exit — the hook adds no throw and no
handler and does not alter the outcome: its run is exactly the
initializer's outcome, so it is total whenever the initializer is.  In
particular a normal return `Except.ok n` comes back as `Except.ok n`. -/
theorem jni_onload_no_throw_pass_through
    (init : JavaVM → Except ε Jint) (vm : JavaVM) (reserved : ReservedPtr) :
    runExcept init (JNI_OnLoad vm reserved) = init vm := by
  cases h : init vm <;> simp [runExcept, JNI_OnLoad, h]

/-- C3: whenever the external initializer returns a non-success status
(anything other than `JNI_OK`), the hook returns that same status
verbatim — no interpretation, no retry, no substitution on the error
path. -/
theorem jni_onload_failure_surfaced_verbatim
    (init : JavaVM → Jint) (vm : JavaVM) (reserved : ReservedPtr)
    (hfail : init vm ≠ JNI_OK) :
    runPure init (JNI_OnLoad vm reserved) = init vm := by
  exact rfl

/-- Witness for C3: an initializer that returns the failure sentinel
`JNI_ERR = -1` on handle `5`; the hook returns exactly `-1`. -/
theorem jni_onload_failure_surfaced_verbatim_witness :
    (fun _ : JavaVM => (-1 : Jint)) 5 ≠ JNI_OK ∧
    runPure (fun _ : JavaVM => (-1 : Jint)) (JNI_OnLoad 5 7) =
      (fun _ : JavaVM => (-1 : Jint)) 5 :=
  ⟨by decide,
   jni_onload_failure_surfaced_verbatim (fun _ => (-1 : Jint)) 5 7 (by decide)⟩

/-- C4: a single invocation of the hook calls the external initializer
exactly once — the call trace is the one-element list `[vm]` for every
initializer behaviour, so there is no retry and no duplicate invocation
whether the initializer reports success or failure. -/
theorem jni_onload_calls_initializer_exactly_once
    (init : JavaVM → Jint) (vm : JavaVM) (reserved : ReservedPtr) :
    (runTrace init (JNI_OnLoad vm reserved)).2 = [vm] ∧
    (runTrace init (JNI_OnLoad vm reserved)).2.length = 1 :=
  ⟨rfl, rfl⟩

/-- C5: the hook neither stores nor mutates the handle: its run leaves
the shim's retained store exactly as it was (the shim keeps no copy of
`vm`), and the final host state is exactly what the single initializer
call produces — the shim itself contributes no mutation of host-runtime
state reachable through the handle. -/
theorem jni_onload_no_store_no_mutation
    (init : JavaVM → σ → Jint × σ) (s : σ) (store : List JavaVM)
    (vm : JavaVM) (reserved : ReservedPtr) :
    runState init (JNI_OnLoad vm reserved) s store =
      ((init vm s).1, (init vm s).2, store) := rfl

/-- C6: the hook's return value is obtained verbatim from the external
initializer, so for the initializer modelled from the spec (one whose
outputs are recognized host-runtime status/version codes) the hook's
output always lies in the host runtime's set of recognized codes. -/
theorem jni_onload_returns_recognized_code
    (init : JavaVM → Jint) (vm : JavaVM) (reserved : ReservedPtr)
    (hspec : SpecInitializer init) :
    RecognizedCode (runPure init (JNI_OnLoad vm reserved)) ∧
    runPure init (JNI_OnLoad vm reserved) = init vm :=
  ⟨hspec vm, rfl⟩

/-- Witness for C6: the initializer constantly returning
`JNI_VERSION_1_6 = 0x00010006` satisfies the spec model, and the hook
returns that recognized code. -/
theorem jni_onload_returns_recognized_code_witness :
    RecognizedCode (runPure (fun _ : JavaVM => (0x00010006 : Jint))
      (JNI_OnLoad 3 4)) ∧
    runPure (fun _ : JavaVM => (0x00010006 : Jint)) (JNI_OnLoad 3 4) =
      (fun _ : JavaVM => (0x00010006 : Jint)) 3 :=
  jni_onload_returns_recognized_code (fun _ => (0x00010006 : Jint)) 3 4
    (fun _ => (by decide : RecognizedCode (0x00010006 : Jint)))

/-- C7: the hook introduces no blocking, suspension, or looping of its
own: its run is exactly the single forwarded call's outcome, so it
terminates (produces `some`) if and only if that call does. -/
theorem jni_onload_terminates_iff_initializer_does
    (init : JavaVM → Option Jint) (vm : JavaVM) (reserved : ReservedPtr) :
    runOpt init (JNI_OnLoad vm reserved) = init vm ∧
    ((runOpt init (JNI_OnLoad vm reserved)).isSome ↔ (init vm).isSome) := by
  have h : runOpt init (JNI_OnLoad vm reserved) = init vm := by
    cases h : init vm <;> simp [runOpt, JNI_OnLoad, h]
  exact ⟨h, by rw [h]⟩

/-- C8: the shim holds no state of its own: run against an initializer
whose behaviour depends only on the handle, the hook's result is
`init vm` for every host state and every shim store — so any two
invocations with the same handle and the same initializer behaviour
produce the same result, and the run changes neither state component,
leaving nothing for a later invocation to depend on. -/
theorem jni_onload_stateless_deterministic
    (init : JavaVM → Jint) (s : σ) (store : List JavaVM)
    (vm : JavaVM) (reserved : ReservedPtr) :
    (runState (pureInit init) (JNI_OnLoad vm reserved) s store).1 = init vm ∧
    (runState (pureInit init) (JNI_OnLoad vm reserved) s store).2.1 = s ∧
    (runState (pureInit init) (JNI_OnLoad vm reserved) s store).2.2 = store :=
  ⟨rfl, rfl, rfl⟩

/-- C9: the reserved second parameter is completely ignored: for the
same handle and any two values of the reserved argument the hook builds
the very same program — hence makes the same initializer call and
returns the same result under every interpretation. -/
theorem jni_onload_ignores_reserved_argument
    (vm : JavaVM) (r₁ r₂ : ReservedPtr) :
    JNI_OnLoad vm r₁ = JNI_OnLoad vm r₂ ∧
    ∀ init : JavaVM → Jint,
      runTrace init (JNI_OnLoad vm r₁) = runTrace init (JNI_OnLoad vm r₂) :=
  ⟨rfl, fun _ => rfl⟩

/-- C10: the hook performs no validation of the handle: every handle
value is forwarded unchecked to the initializer — stated for all `vm`
with no precondition, and instantiated at the null pointer `nullVM`. -/
theorem jni_onload_no_handle_validation
    (init : JavaVM → Jint) (vm : JavaVM) (reserved : ReservedPtr) :
    runTrace init (JNI_OnLoad vm reserved) = (init vm, [vm]) ∧
    runTrace init (JNI_OnLoad nullVM reserved) =
      (init nullVM, [nullVM]) :=
  ⟨rfl, rfl⟩

end OndeviceAiShim
